import Mathlib

/-!
Shallow embedding of the search-provider fallback chain of the
fact-checker repository (file `smart_search_tool.py`), together with
theorems settling the specification claims about it.

The embedding models:
* `UsageTracker` (usage records, quota check-and-update, status report,
  cache-file load/save with explicit storage-failure outcomes);
* the provider adapters (Serper, SearXNG with instance rotation, Brave,
  Google scraper), with external HTTP behaviour supplied as explicit
  environment values and Python exceptions modelled with `Except`;
* the `SmartSearchTool.search` fallback loop, instrumented with an event
  trace recording which providers were consulted.
-/

/-- One usage record, Python `{"count": n, "month"/"day": key}`. -/
structure UsageRecord where
  count : Nat
  period : String
deriving DecidableEq, Repr

/-- The tracker's `usage_data` dictionary: one record per tracked service. -/
structure UsageData where
  serper : UsageRecord
  brave : UsageRecord
  searxng : UsageRecord
deriving DecidableEq, Repr

/-- The default usage data built by `load_usage` when no cache file exists:
    zero counts, periods set to the current month / day. -/
def defaultUsage (currentMonth currentDay : String) : UsageData :=
  ⟨⟨0, currentMonth⟩, ⟨0, currentDay⟩, ⟨0, currentDay⟩⟩

/-- The state of the on-disk cache file as seen by `load_usage`: either the
    file is missing, or it exists and reading/parsing it either yields data
    or raises (modelled as `Except.error`). -/
inductive CacheFile where
  | missing
  | present (read : Except String UsageData)

/-- `UsageTracker.load_usage`: if the cache file exists it is read and parsed
    with no exception handler (a read failure propagates); otherwise the
    zeroed default is returned. -/
def load_usage (file : CacheFile) (currentMonth currentDay : String) :
    Except String UsageData :=
  match file with
  | CacheFile.present r => r
  | CacheFile.missing => Except.ok (defaultUsage currentMonth currentDay)

/-- `UsageTracker.save_usage`: writes the usage data with no exception
    handler; `saveOk` says whether the write succeeds, a failing write
    raises (modelled as `Except.error`). -/
def save_usage (saveOk : Bool) : Except String Unit :=
  if saveOk then Except.ok () else Except.error "write failure"

/-- `UsageTracker.check_and_update`.  Returns the decision, the updated
    usage data, and the list of `logger.warning` messages emitted.
    `currentMonth`/`currentDay` stand for `datetime.now().strftime(...)`
    at call time; `saveOk` models whether the cache-file write succeeds. -/
def check_and_update (saveOk : Bool) (currentMonth currentDay : String)
    (service : String) (u : UsageData) :
    Except String (Bool × UsageData × List String) :=
  if service = "serper" then
    let u1 := if u.serper.period ≠ currentMonth then
        { u with serper := ⟨0, currentMonth⟩ } else u
    if u1.serper.count ≥ 2500 then
      Except.ok (false, u1, ["Serper maandlimiet bereikt (2,500 searches)"])
    else
      let u2 := { u1 with serper := ⟨u1.serper.count + 1, u1.serper.period⟩ }
      match save_usage saveOk with
      | Except.ok _ => Except.ok (true, u2, [])
      | Except.error e => Except.error e
  else if service = "brave" then
    let u1 := if u.brave.period ≠ currentDay then
        { u with brave := ⟨0, currentDay⟩ } else u
    if u1.brave.count ≥ 66 then
      Except.ok (false, u1, ["Brave daglimiet bereikt"])
    else
      let u2 := { u1 with brave := ⟨u1.brave.count + 1, u1.brave.period⟩ }
      match save_usage saveOk with
      | Except.ok _ => Except.ok (true, u2, [])
      | Except.error e => Except.error e
  else if service = "searxng" then
    let u1 := if u.searxng.period ≠ currentDay then
        { u with searxng := ⟨0, currentDay⟩ } else u
    if u1.searxng.count ≥ 100 then
      Except.ok (false, u1, ["SearXNG daglimiet bereikt"])
    else
      let u2 := { u1 with searxng := ⟨u1.searxng.count + 1, u1.searxng.period⟩ }
      match save_usage saveOk with
      | Except.ok _ => Except.ok (true, u2, [])
      | Except.error e => Except.error e
  else
    match save_usage saveOk with
    | Except.ok _ => Except.ok (true, u, [])
    | Except.error e => Except.error e

/-- One provider's entry in the `get_status` report. -/
structure ProviderStatus where
  used : Nat
  remaining : Int
  period : String
deriving DecidableEq, Repr

/-- The full `get_status` report. -/
structure StatusMap where
  serper : ProviderStatus
  brave : ProviderStatus
  searxng : ProviderStatus
deriving DecidableEq, Repr

/-- `UsageTracker.get_status`: a pure read of the stored records; note it
    takes no current date, so no period rollover can be applied. -/
def get_status (u : UsageData) : StatusMap :=
  ⟨⟨u.serper.count, max 0 (2500 - (u.serper.count : Int)), u.serper.period⟩,
   ⟨u.brave.count, max 0 (66 - (u.brave.count : Int)), u.brave.period⟩,
   ⟨u.searxng.count, max 0 (100 - (u.searxng.count : Int)), u.searxng.period⟩⟩

/-- Iterate `check_and_update` (with a healthy writer) `n` times for one
    service at a fixed current date, collecting the boolean decisions. -/
def runChecks (service currentMonth currentDay : String) :
    Nat → UsageData → List Bool × UsageData
  | 0, u => ([], u)
  | Nat.succ n, u =>
    match check_and_update true currentMonth currentDay service u with
    | Except.ok (b, u1, _) =>
      let r := runChecks service currentMonth currentDay n u1
      (b :: r.1, r.2)
    | Except.error _ => ([], u)

/-- One search result, Python
    `{"title": ..., "snippet": ..., "link": ..., "source": ...}`. -/
structure SearchResult where
  title : String
  snippet : String
  link : String
  source : String
deriving DecidableEq, Repr

/-- A raw JSON item from an API response; each field may be absent
    (Python `item.get(key, "")` substitutes `""`). -/
structure RawItem where
  title : Option String
  snippet : Option String
  link : Option String
deriving DecidableEq, Repr

/-- The behaviour of one HTTP request made by an API provider: a 200
    response with parsed items, a non-200 status, a 200 response whose body
    fails to parse as JSON (raises), or a transport error (raises). -/
inductive HttpOutcome where
  | ok (items : List RawItem)
  | badStatus (code : Nat)
  | malformed
  | transportError
deriving DecidableEq, Repr

/-- A Python `try/except` whose handler returns the empty result list. -/
def catch_to_empty (body : Except String (List SearchResult)) :
    List SearchResult :=
  match body with
  | Except.ok r => r
  | Except.error _ => []

/-- Result parsing in `SerperProvider.search` (the `organic` items). -/
def serper_parse (items : List RawItem) : List SearchResult :=
  items.map fun i => ⟨i.title.getD "", i.snippet.getD "", i.link.getD "", "serper"⟩

/-- The body of `SerperProvider.search`'s `try` block. -/
def serper_search_body : HttpOutcome → Except String (List SearchResult)
  | HttpOutcome.ok items => Except.ok (serper_parse items)
  | HttpOutcome.badStatus _ => Except.ok []
  | HttpOutcome.malformed => Except.error "json parse error"
  | HttpOutcome.transportError => Except.error "transport error"

/-- `SerperProvider.search`: any exception is caught and `[]` returned. -/
def serper_search (env : HttpOutcome) : List SearchResult :=
  catch_to_empty (serper_search_body env)

/-- Result parsing in `BraveProvider.search` (the `web.results` items). -/
def brave_parse (items : List RawItem) : List SearchResult :=
  items.map fun i => ⟨i.title.getD "", i.snippet.getD "", i.link.getD "", "brave"⟩

/-- The body of `BraveProvider.search`'s `try` block. -/
def brave_search_body : HttpOutcome → Except String (List SearchResult)
  | HttpOutcome.ok items => Except.ok (brave_parse items)
  | HttpOutcome.badStatus _ => Except.ok []
  | HttpOutcome.malformed => Except.error "json parse error"
  | HttpOutcome.transportError => Except.error "transport error"

/-- `BraveProvider.search`: any exception is caught and `[]` returned. -/
def brave_search (env : HttpOutcome) : List SearchResult :=
  catch_to_empty (brave_search_body env)

/-- `SearXNGProvider.PUBLIC_INSTANCES`. -/
def PUBLIC_INSTANCES : List String :=
  ["https://searx.be",
   "https://searx.work",
   "https://search.bus-hit.me",
   "https://search.sapti.me",
   "https://searx.tiekoetter.com"]

/-- The rotation state of a `SearXNGProvider` instance. -/
structure SearxngState where
  current_instance_idx : Nat
  instance_url : String
deriving DecidableEq, Repr

/-- `SearXNGProvider.rotate_instance`. -/
def rotate_instance (s : SearxngState) : SearxngState :=
  let idx := (s.current_instance_idx + 1) % PUBLIC_INSTANCES.length
  ⟨idx, PUBLIC_INSTANCES.getD idx ""⟩

/-- The behaviour of one HTTP request made by `SearXNGProvider.search`:
    200 with items, a non-200 status, or an exception (transport error or
    malformed JSON body, both caught by the `except` clause). -/
inductive SxOutcome where
  | ok (items : List RawItem)
  | badStatus (code : Nat)
  | exn
deriving DecidableEq, Repr

/-- Whether an attempt outcome is a successful 200 response. -/
def SxOutcome.isOk : SxOutcome → Bool
  | SxOutcome.ok _ => true
  | _ => false

/-- Result parsing in `SearXNGProvider.search` (`results[:10]`). -/
def sx_parse (items : List RawItem) : List SearchResult :=
  (items.take 10).map fun i =>
    ⟨i.title.getD "", i.snippet.getD "", i.link.getD "", "searxng"⟩

/-- The retry loop of `SearXNGProvider.search`: `fuel` is the number of
    attempts left (`max_retries = 3` initially), `att` the number of
    attempts already made, `env att` the behaviour of the request issued on
    attempt number `att`.  Returns the results, the final rotation state,
    and the total number of attempts made. -/
def searxng_attempt_loop (env : Nat → SxOutcome) :
    Nat → Nat → SearxngState → List SearchResult × SearxngState × Nat
  | 0, att, s => ([], s, att)
  | Nat.succ n, att, s =>
    match env att with
    | SxOutcome.ok items => (sx_parse items, s, att + 1)
    | SxOutcome.badStatus _ => searxng_attempt_loop env n (att + 1) (rotate_instance s)
    | SxOutcome.exn => searxng_attempt_loop env n (att + 1) (rotate_instance s)

/-- `SearXNGProvider.search` with `max_retries = 3`. -/
def searxng_search (env : Nat → SxOutcome) (s : SearxngState) :
    List SearchResult × SearxngState × Nat :=
  searxng_attempt_loop env 3 0 s

/-- One scraped Google result div: an optional `h3` title, an optional
    snippet span, and an optional `a` element whose `href` attribute may be
    absent. -/
structure ScrapeItem where
  title : Option String
  snippet : Option String
  linkHref : Option (Option String)
deriving DecidableEq, Repr

/-- The behaviour of the scraper's HTTP request. -/
inductive ScrapeOutcome where
  | ok (items : List ScrapeItem)
  | badStatus (code : Nat)
  | exn
deriving DecidableEq, Repr

/-- Result parsing in `GoogleScraperProvider.search` (top 5 divs; an entry
    is kept only when both a title and a link element are present). -/
def scrape_parse (items : List ScrapeItem) : List SearchResult :=
  (items.take 5).filterMap fun g =>
    match g.title, g.linkHref with
    | some t, some href => some ⟨t, g.snippet.getD "", href.getD "", "google_scraper"⟩
    | _, _ => none

/-- The body of `GoogleScraperProvider.search`'s `try` block (a non-200
    response falls through to the final `return []`). -/
def scrape_search_body : ScrapeOutcome → Except String (List SearchResult)
  | ScrapeOutcome.ok items => Except.ok (scrape_parse items)
  | ScrapeOutcome.badStatus _ => Except.ok []
  | ScrapeOutcome.exn => Except.error "scrape error"

/-- `GoogleScraperProvider.search`: any exception is caught, `[]` returned. -/
def google_scraper_search (env : ScrapeOutcome) : List SearchResult :=
  catch_to_empty (scrape_search_body env)

/-- An observable event of one `SmartSearchTool.search` call: an
    `is_available()` consultation with its answer, or a `search()` call. -/
inductive Event where
  | availCheck (name : String) (result : Bool)
  | searchCall (name : String)
deriving DecidableEq, Repr

/-- An abstract provider as the orchestrator loop sees it: a class name and
    the two stateful methods, over a world-state type `σ`; either method may
    raise (Python exceptions modelled as `Except.error`). -/
structure ProviderM (σ : Type) where
  name : String
  is_available : σ → Except String (Bool × σ)
  search : String → σ → Except String (List SearchResult × σ)

/-- The provider loop of `SmartSearchTool.search`: `results` is the mutable
    local of the Python loop (carried across iterations); returns the final
    results, `used_provider`, the final state, and the event trace. -/
def search_loop {σ : Type} (q : String) :
    List (ProviderM σ) → List SearchResult → σ →
    Except String (List SearchResult × Option String × σ × List Event)
  | [], results, st => Except.ok (results, none, st, [])
  | p :: rest, results, st =>
    match p.is_available st with
    | Except.error e => Except.error e
    | Except.ok (avail, st1) =>
      if avail then
        match p.search q st1 with
        | Except.error e => Except.error e
        | Except.ok (r, st2) =>
          if r.isEmpty then
            match search_loop q rest r st2 with
            | Except.error e => Except.error e
            | Except.ok (res, used, st3, tr) =>
              Except.ok (res, used, st3,
                Event.availCheck p.name true :: Event.searchCall p.name :: tr)
          else
            Except.ok (r, some p.name, st2,
              [Event.availCheck p.name true, Event.searchCall p.name])
      else
        match search_loop q rest results st1 with
        | Except.error e => Except.error e
        | Except.ok (res, used, st2, tr) =>
          Except.ok (res, used, st2, Event.availCheck p.name false :: tr)

/-- The outcome dictionary returned by `SmartSearchTool.search`. -/
structure SearchOutcome where
  query : String
  provider : Option String
  results : List SearchResult
  usage_status : StatusMap
  timestamp : String
deriving DecidableEq, Repr

/-- `SmartSearchTool.search`: run the fallback loop, then attach the fresh
    usage snapshot (read from the final state by `getUsage`) and the
    timestamp. -/
def smart_search {σ : Type} (getUsage : σ → UsageData) (timestamp : String)
    (providers : List (ProviderM σ)) (q : String) (st : σ) :
    Except String (SearchOutcome × σ × List Event) :=
  match search_loop q providers [] st with
  | Except.error e => Except.error e
  | Except.ok (results, used, st1, tr) =>
    Except.ok (⟨q, used, results, get_status (getUsage st1), timestamp⟩, st1, tr)

/-- The world state threaded through a concrete `SmartSearchTool` call:
    the tracker's data and environment (current date, writer health), the
    SearXNG rotation state, and the network behaviour each provider's
    requests will meet on this call. -/
structure World where
  usage : UsageData
  saveOk : Bool
  currentMonth : String
  currentDay : String
  sx : SearxngState
  serperEnv : HttpOutcome
  braveEnv : HttpOutcome
  sxEnv : Nat → SxOutcome
  scraperEnv : ScrapeOutcome

/-- Lift a tracker call into a world-state transition. -/
def tracker_check (service : String) (w : World) : Except String (Bool × World) :=
  match check_and_update w.saveOk w.currentMonth w.currentDay service w.usage with
  | Except.ok (b, u1, _) => Except.ok (b, { w with usage := u1 })
  | Except.error e => Except.error e

/-- `SerperProvider` as seen by the loop (`api_key` empty means absent). -/
def serper_provider (api_key : String) : ProviderM World :=
  { name := "SerperProvider",
    is_available := fun w =>
      if api_key = "" then Except.ok (false, w)
      else tracker_check "serper" w,
    search := fun _ w => Except.ok (serper_search w.serperEnv, w) }

/-- `SearXNGProvider` as seen by the loop. -/
def searxng_provider : ProviderM World :=
  { name := "SearXNGProvider",
    is_available := fun w => tracker_check "searxng" w,
    search := fun _ w =>
      let r := searxng_search w.sxEnv w.sx
      Except.ok (r.1, { w with sx := r.2.1 }) }

/-- `BraveProvider` as seen by the loop. -/
def brave_provider (api_key : String) : ProviderM World :=
  { name := "BraveProvider",
    is_available := fun w =>
      if api_key = "" then Except.ok (false, w)
      else tracker_check "brave" w,
    search := fun _ w => Except.ok (brave_search w.braveEnv, w) }

/-- `GoogleScraperProvider` as seen by the loop (always available). -/
def google_scraper_provider : ProviderM World :=
  { name := "GoogleScraperProvider",
    is_available := fun w => Except.ok (true, w),
    search := fun _ w => Except.ok (google_scraper_search w.scraperEnv, w) }

/-- The provider list assembled by `SmartSearchTool.__init__`: Serper (only
    with a key), SearXNG, Brave (only with a key), then the scraper. -/
def make_providers (serper_key brave_key : String) : List (ProviderM World) :=
  (if serper_key = "" then [] else [serper_provider serper_key]) ++
  [searxng_provider] ++
  (if brave_key = "" then [] else [brave_provider brave_key]) ++
  [google_scraper_provider]

/-- A successful (incrementing) serper check in an unexpired period. -/
theorem check_serper_step (m d : String) (u : UsageData)
    (hp : u.serper.period = m) (hc : u.serper.count < 2500) :
    check_and_update true m d "serper" u =
      Except.ok (true, { u with serper := ⟨u.serper.count + 1, m⟩ }, []) := by
  simp [check_and_update, save_usage, hp,
    show ¬ (2500 ≤ u.serper.count) from by omega]

/-- A successful (incrementing) brave check in an unexpired period. -/
theorem check_brave_step (m d : String) (u : UsageData)
    (hp : u.brave.period = d) (hc : u.brave.count < 66) :
    check_and_update true m d "brave" u =
      Except.ok (true, { u with brave := ⟨u.brave.count + 1, d⟩ }, []) := by
  simp [check_and_update, save_usage, hp,
    show ¬ (66 ≤ u.brave.count) from by omega]

/-- A successful (incrementing) searxng check in an unexpired period. -/
theorem check_searxng_step (m d : String) (u : UsageData)
    (hp : u.searxng.period = d) (hc : u.searxng.count < 100) :
    check_and_update true m d "searxng" u =
      Except.ok (true, { u with searxng := ⟨u.searxng.count + 1, d⟩ }, []) := by
  simp [check_and_update, save_usage, hp,
    show ¬ (100 ≤ u.searxng.count) from by omega]

/-- Iterating serper checks below the quota: all `true`, count adds up. -/
theorem runChecks_serper (m d : String) (n : Nat) :
    ∀ u : UsageData, u.serper.period = m → u.serper.count + n ≤ 2500 →
      runChecks "serper" m d n u =
        (List.replicate n true, { u with serper := ⟨u.serper.count + n, m⟩ }) := by
  induction n with
  | zero =>
    intro u hp _
    cases u with
    | mk s b x =>
      cases s with
      | mk c p =>
        simp only at hp
        simp [runChecks, hp]
  | succ n ih =>
    intro u hp hc
    rw [runChecks, check_serper_step m d u hp (by omega)]
    dsimp only
    rw [ih _ (by simp) (by simp; omega)]
    have h1 : u.serper.count + 1 + n = u.serper.count + (n + 1) := by omega
    rw [h1]
    simp [List.replicate_succ]

/-- Iterating brave checks below the quota: all `true`, count adds up. -/
theorem runChecks_brave (m d : String) (n : Nat) :
    ∀ u : UsageData, u.brave.period = d → u.brave.count + n ≤ 66 →
      runChecks "brave" m d n u =
        (List.replicate n true, { u with brave := ⟨u.brave.count + n, d⟩ }) := by
  induction n with
  | zero =>
    intro u hp _
    cases u with
    | mk s b x =>
      cases b with
      | mk c p =>
        simp only at hp
        simp [runChecks, hp]
  | succ n ih =>
    intro u hp hc
    rw [runChecks, check_brave_step m d u hp (by omega)]
    dsimp only
    rw [ih _ (by simp) (by simp; omega)]
    have h1 : u.brave.count + 1 + n = u.brave.count + (n + 1) := by omega
    rw [h1]
    simp [List.replicate_succ]

/-- Iterating searxng checks below the quota: all `true`, count adds up. -/
theorem runChecks_searxng (m d : String) (n : Nat) :
    ∀ u : UsageData, u.searxng.period = d → u.searxng.count + n ≤ 100 →
      runChecks "searxng" m d n u =
        (List.replicate n true, { u with searxng := ⟨u.searxng.count + n, d⟩ }) := by
  induction n with
  | zero =>
    intro u hp _
    cases u with
    | mk s b x =>
      cases x with
      | mk c p =>
        simp only at hp
        simp [runChecks, hp]
  | succ n ih =>
    intro u hp hc
    rw [runChecks, check_searxng_step m d u hp (by omega)]
    dsimp only
    rw [ih _ (by simp) (by simp; omega)]
    have h1 : u.searxng.count + 1 + n = u.searxng.count + (n + 1) := by omega
    rw [h1]
    simp [List.replicate_succ]

/-- C1: for each tracked provider (serper 2500/month, brave 66/day,
    searxng 100/day), starting from a zeroed record with the period key
    held fixed, `check_and_update` returns `true` on each of the first
    `quota` calls, and the `quota+1`-th call in the same period returns
    `false`. -/
theorem check_and_update_quota_exhaustion (m d : String) :
    ((runChecks "serper" m d 2500 (defaultUsage m d)).1 = List.replicate 2500 true ∧
     check_and_update true m d "serper" (runChecks "serper" m d 2500 (defaultUsage m d)).2 =
       Except.ok (false, (runChecks "serper" m d 2500 (defaultUsage m d)).2,
         ["Serper maandlimiet bereikt (2,500 searches)"])) ∧
    ((runChecks "brave" m d 66 (defaultUsage m d)).1 = List.replicate 66 true ∧
     check_and_update true m d "brave" (runChecks "brave" m d 66 (defaultUsage m d)).2 =
       Except.ok (false, (runChecks "brave" m d 66 (defaultUsage m d)).2,
         ["Brave daglimiet bereikt"])) ∧
    ((runChecks "searxng" m d 100 (defaultUsage m d)).1 = List.replicate 100 true ∧
     check_and_update true m d "searxng" (runChecks "searxng" m d 100 (defaultUsage m d)).2 =
       Except.ok (false, (runChecks "searxng" m d 100 (defaultUsage m d)).2,
         ["SearXNG daglimiet bereikt"])) := by
  have hs := runChecks_serper m d 2500 (defaultUsage m d) rfl (by simp [defaultUsage])
  have hb := runChecks_brave m d 66 (defaultUsage m d) rfl (by simp [defaultUsage])
  have hx := runChecks_searxng m d 100 (defaultUsage m d) rfl (by simp [defaultUsage])
  rw [hs, hb, hx]
  refine ⟨⟨rfl, ?_⟩, ⟨rfl, ?_⟩, ⟨rfl, ?_⟩⟩
  · simp [check_and_update, defaultUsage]
  · simp [check_and_update, defaultUsage]
  · simp [check_and_update, defaultUsage]

/-- C2: if the stored period key differs from the current one, the record
    is reset to count 0 with the new key before the quota comparison, so
    the call returns `true` (with count 1) regardless of prior exhaustion. -/
theorem check_and_update_period_rollover :
    (∀ (m d : String) (u : UsageData), u.serper.period ≠ m →
        check_and_update true m d "serper" u =
          Except.ok (true, { u with serper := ⟨1, m⟩ }, [])) ∧
    (∀ (m d : String) (u : UsageData), u.brave.period ≠ d →
        check_and_update true m d "brave" u =
          Except.ok (true, { u with brave := ⟨1, d⟩ }, [])) ∧
    (∀ (m d : String) (u : UsageData), u.searxng.period ≠ d →
        check_and_update true m d "searxng" u =
          Except.ok (true, { u with searxng := ⟨1, d⟩ }, [])) := by
  refine ⟨fun m d u h => ?_, fun m d u h => ?_, fun m d u h => ?_⟩
  · simp [check_and_update, save_usage, h]
  · simp [check_and_update, save_usage, h]
  · simp [check_and_update, save_usage, h]

/-- Witness for C2: a record exhausted in January is reset and approved in
    February. -/
theorem check_and_update_period_rollover_witness :
    check_and_update true "2025-02" "2025-02-01" "serper"
        { defaultUsage "2025-01" "2025-01-15" with serper := ⟨2500, "2025-01"⟩ } =
      Except.ok (true,
        { defaultUsage "2025-01" "2025-01-15" with serper := ⟨1, "2025-02"⟩ }, []) ∧
    check_and_update true "2025-02" "2025-02-01" "brave"
        { defaultUsage "2025-01" "2025-01-15" with brave := ⟨66, "2025-01-15"⟩ } =
      Except.ok (true,
        { defaultUsage "2025-01" "2025-01-15" with brave := ⟨1, "2025-02-01"⟩ }, []) ∧
    check_and_update true "2025-02" "2025-02-01" "searxng"
        { defaultUsage "2025-01" "2025-01-15" with searxng := ⟨100, "2025-01-15"⟩ } =
      Except.ok (true,
        { defaultUsage "2025-01" "2025-01-15" with searxng := ⟨1, "2025-02-01"⟩ }, []) :=
  ⟨check_and_update_period_rollover.1 _ _ _ (by decide),
   check_and_update_period_rollover.2.1 _ _ _ (by decide),
   check_and_update_period_rollover.2.2 _ _ _ (by decide)⟩

/-- C5: whenever `check_and_update` returns `false`, the usage data is left
    exactly as it was and a warning is emitted; moreover the denied path
    performs no write — the same result is produced even when the writer
    is broken. -/
theorem check_and_update_denied_no_mutation :
    (∀ (saveOk : Bool) (m d svc : String) (u : UsageData) (b : Bool)
        (u' : UsageData) (ws : List String),
        check_and_update saveOk m d svc u = Except.ok (b, u', ws) → b = false →
        u' = u ∧ ws ≠ []) ∧
    (∀ (m d svc : String) (u u' : UsageData) (ws : List String),
        check_and_update true m d svc u = Except.ok (false, u', ws) →
        check_and_update false m d svc u = Except.ok (false, u', ws)) := by
  constructor
  · intro saveOk m d svc u b u' ws h hb
    subst hb
    simp only [check_and_update, save_usage] at h
    repeat' split at h
    all_goals simp_all
    all_goals obtain ⟨h1, h2⟩ := h
    all_goals subst h2
    all_goals simp
  · intro m d svc u u' ws h
    simp only [check_and_update, save_usage] at h ⊢
    repeat' split at h
    all_goals simp_all

/-- Witness for C5: a serper record at its quota is denied without change,
    with a warning, and identically so under a broken writer. -/
theorem check_and_update_denied_no_mutation_witness :
    ({ defaultUsage "2025-01" "2025-01-15" with serper := ⟨2500, "2025-01"⟩ } =
        { defaultUsage "2025-01" "2025-01-15" with serper := ⟨2500, "2025-01"⟩ } ∧
      (["Serper maandlimiet bereikt (2,500 searches)"] : List String) ≠ []) ∧
    check_and_update false "2025-01" "2025-01-15" "serper"
        { defaultUsage "2025-01" "2025-01-15" with serper := ⟨2500, "2025-01"⟩ } =
      Except.ok (false,
        { defaultUsage "2025-01" "2025-01-15" with serper := ⟨2500, "2025-01"⟩ },
        ["Serper maandlimiet bereikt (2,500 searches)"]) :=
  ⟨check_and_update_denied_no_mutation.1 true "2025-01" "2025-01-15" "serper"
      { defaultUsage "2025-01" "2025-01-15" with serper := ⟨2500, "2025-01"⟩ }
      false _ _ rfl rfl,
   check_and_update_denied_no_mutation.2 "2025-01" "2025-01-15" "serper"
      { defaultUsage "2025-01" "2025-01-15" with serper := ⟨2500, "2025-01"⟩ }
      _ _ rfl⟩

/-- C9 (amended): `check_and_update` with an unregistered service name does
    not raise — it silently returns `true` with the records unchanged (and
    still attempts the cache write, so only a broken writer makes it
    raise). -/
theorem check_and_update_unknown_service :
    (∀ (m d : String) (u : UsageData) (svc : String),
        svc ≠ "serper" → svc ≠ "brave" → svc ≠ "searxng" →
        check_and_update true m d svc u = Except.ok (true, u, [])) ∧
    (∀ (m d : String) (u : UsageData) (svc : String),
        svc ≠ "serper" → svc ≠ "brave" → svc ≠ "searxng" →
        check_and_update false m d svc u = Except.error "write failure") := by
  constructor <;> intro m d u svc h1 h2 h3 <;>
    simp [check_and_update, save_usage, h1, h2, h3]

/-- Counterexample to C9 as stated: an unregistered provider name does not
    raise; the call silently succeeds, returning `true` with no record
    touched. -/
theorem check_and_update_unknown_service_counterexample :
    check_and_update true "2025-01" "2025-01-15" "unknown"
        (defaultUsage "2025-01" "2025-01-15") =
      Except.ok (true, defaultUsage "2025-01" "2025-01-15", []) := rfl

/-- Witness for the amended C9 at a concrete unregistered name. -/
theorem check_and_update_unknown_service_witness :
    check_and_update true "2025-03" "2025-03-01" "duckduckgo"
        (defaultUsage "2025-03" "2025-03-01") =
      Except.ok (true, defaultUsage "2025-03" "2025-03-01", []) ∧
    check_and_update false "2025-03" "2025-03-01" "duckduckgo"
        (defaultUsage "2025-03" "2025-03-01") =
      Except.error "write failure" :=
  ⟨check_and_update_unknown_service.1 _ _ _ _ (by decide) (by decide) (by decide),
   check_and_update_unknown_service.2 _ _ _ _ (by decide) (by decide) (by decide)⟩

/-- C6 (amended): only a missing cache file yields the zeroed default; a
    read failure on an existing file propagates out of `load_usage`, and a
    write failure propagates out of `check_and_update` instead of the
    `true` decision. -/
theorem storage_failures_propagate :
    (∀ m d : String, load_usage CacheFile.missing m d =
        Except.ok (defaultUsage m d)) ∧
    (∀ e m d : String, load_usage (CacheFile.present (Except.error e)) m d =
        Except.error e) ∧
    (∀ (m d : String) (u : UsageData), u.serper.period = m →
        u.serper.count < 2500 →
        check_and_update false m d "serper" u = Except.error "write failure") := by
  refine ⟨fun m d => rfl, fun e m d => rfl, fun m d u hp hc => ?_⟩
  simp [check_and_update, save_usage, hp,
    show ¬ (2500 ≤ u.serper.count) from by omega]

/-- Counterexample to C6 as stated: a failing read of an existing cache
    file propagates instead of yielding a zeroed tracker, and a failing
    write propagates out of `check_and_update` instead of returning the
    `true` decision. -/
theorem storage_failure_counterexample :
    load_usage (CacheFile.present (Except.error "corrupt")) "2025-01" "2025-01-15" =
      Except.error "corrupt" ∧
    check_and_update false "2025-01" "2025-01-15" "serper"
        (defaultUsage "2025-01" "2025-01-15") = Except.error "write failure" :=
  ⟨rfl, rfl⟩

/-- Witness for the amended C6 at concrete inputs. -/
theorem storage_failures_propagate_witness :
    load_usage CacheFile.missing "2025-04" "2025-04-01" =
      Except.ok (defaultUsage "2025-04" "2025-04-01") ∧
    load_usage (CacheFile.present (Except.error "disk error")) "2025-04" "2025-04-01" =
      Except.error "disk error" ∧
    check_and_update false "2025-04" "2025-04-01" "serper"
        (defaultUsage "2025-04" "2025-04-01") = Except.error "write failure" :=
  ⟨storage_failures_propagate.1 _ _, storage_failures_propagate.2.1 _ _ _,
   storage_failures_propagate.2.2 _ _ _ rfl (by decide)⟩

/-- C8: `get_status` is a pure read: per provider it reports
    `used = count`, `remaining = max 0 (quota - count)` and the stored
    period key (no rollover possible — it never sees the current date);
    after `n` successful checks in one period it reports `used = n` and
    `remaining = quota - n`. -/
theorem get_status_reports_usage :
    (∀ u : UsageData,
        (get_status u).serper.used = u.serper.count ∧
        (get_status u).serper.remaining = max 0 (2500 - (u.serper.count : Int)) ∧
        (get_status u).serper.period = u.serper.period ∧
        (get_status u).brave.used = u.brave.count ∧
        (get_status u).brave.remaining = max 0 (66 - (u.brave.count : Int)) ∧
        (get_status u).brave.period = u.brave.period ∧
        (get_status u).searxng.used = u.searxng.count ∧
        (get_status u).searxng.remaining = max 0 (100 - (u.searxng.count : Int)) ∧
        (get_status u).searxng.period = u.searxng.period) ∧
    (∀ (m d : String) (n : Nat), n ≤ 2500 →
        (get_status (runChecks "serper" m d n (defaultUsage m d)).2).serper.used = n ∧
        (get_status (runChecks "serper" m d n (defaultUsage m d)).2).serper.remaining =
          2500 - (n : Int)) ∧
    (∀ (m d : String) (n : Nat), n ≤ 66 →
        (get_status (runChecks "brave" m d n (defaultUsage m d)).2).brave.used = n ∧
        (get_status (runChecks "brave" m d n (defaultUsage m d)).2).brave.remaining =
          66 - (n : Int)) ∧
    (∀ (m d : String) (n : Nat), n ≤ 100 →
        (get_status (runChecks "searxng" m d n (defaultUsage m d)).2).searxng.used = n ∧
        (get_status (runChecks "searxng" m d n (defaultUsage m d)).2).searxng.remaining =
          100 - (n : Int)) := by
  refine ⟨fun u => ⟨rfl, rfl, rfl, rfl, rfl, rfl, rfl, rfl, rfl⟩, ?_, ?_, ?_⟩
  · intro m d n hn
    rw [runChecks_serper m d n (defaultUsage m d) rfl (by simp [defaultUsage]; omega)]
    simp [get_status, defaultUsage]
    omega
  · intro m d n hn
    rw [runChecks_brave m d n (defaultUsage m d) rfl (by simp [defaultUsage]; omega)]
    simp [get_status, defaultUsage]
    omega
  · intro m d n hn
    rw [runChecks_searxng m d n (defaultUsage m d) rfl (by simp [defaultUsage]; omega)]
    simp [get_status, defaultUsage]
    omega

/-- Witness for C8 after 3, 4 and 5 successful checks respectively. -/
theorem get_status_reports_usage_witness :
    ((get_status (runChecks "serper" "2025-05" "2025-05-01" 3
        (defaultUsage "2025-05" "2025-05-01")).2).serper.used = 3 ∧
     (get_status (runChecks "serper" "2025-05" "2025-05-01" 3
        (defaultUsage "2025-05" "2025-05-01")).2).serper.remaining = 2500 - (3 : Int)) ∧
    ((get_status (runChecks "brave" "2025-05" "2025-05-01" 4
        (defaultUsage "2025-05" "2025-05-01")).2).brave.used = 4 ∧
     (get_status (runChecks "brave" "2025-05" "2025-05-01" 4
        (defaultUsage "2025-05" "2025-05-01")).2).brave.remaining = 66 - (4 : Int)) ∧
    ((get_status (runChecks "searxng" "2025-05" "2025-05-01" 5
        (defaultUsage "2025-05" "2025-05-01")).2).searxng.used = 5 ∧
     (get_status (runChecks "searxng" "2025-05" "2025-05-01" 5
        (defaultUsage "2025-05" "2025-05-01")).2).searxng.remaining = 100 - (5 : Int)) :=
  ⟨get_status_reports_usage.2.1 "2025-05" "2025-05-01" 3 (by decide),
   get_status_reports_usage.2.2.1 "2025-05" "2025-05-01" 4 (by decide),
   get_status_reports_usage.2.2.2 "2025-05" "2025-05-01" 5 (by decide)⟩

/-- Rotation always lands on an index within the instance list. -/
theorem rotate_instance_idx_lt (s : SearxngState) :
    (rotate_instance s).current_instance_idx < PUBLIC_INSTANCES.length := by
  simp [rotate_instance, PUBLIC_INSTANCES]
  omega

/-- The retry loop makes at most `att + fuel` attempts in total. -/
theorem searxng_loop_att_le (env : Nat → SxOutcome) :
    ∀ (n att : Nat) (s : SearxngState),
      (searxng_attempt_loop env n att s).2.2 ≤ att + n := by
  intro n
  induction n with
  | zero => intro att s; simp [searxng_attempt_loop]
  | succ n ih =>
    intro att s
    cases hv : env att with
    | ok items => simp [searxng_attempt_loop, hv]
    | badStatus c =>
      simp only [searxng_attempt_loop, hv]
      have := ih (att + 1) (rotate_instance s)
      omega
    | exn =>
      simp only [searxng_attempt_loop, hv]
      have := ih (att + 1) (rotate_instance s)
      omega

/-- The retry loop keeps the instance index within the list. -/
theorem searxng_loop_idx_lt (env : Nat → SxOutcome) :
    ∀ (n att : Nat) (s : SearxngState),
      s.current_instance_idx < PUBLIC_INSTANCES.length →
      (searxng_attempt_loop env n att s).2.1.current_instance_idx <
        PUBLIC_INSTANCES.length := by
  intro n
  induction n with
  | zero => intro att s h; simpa [searxng_attempt_loop] using h
  | succ n ih =>
    intro att s h
    cases hv : env att with
    | ok items => simpa [searxng_attempt_loop, hv] using h
    | badStatus c =>
      simp only [searxng_attempt_loop, hv]
      exact ih (att + 1) (rotate_instance s) (rotate_instance_idx_lt s)
    | exn =>
      simp only [searxng_attempt_loop, hv]
      exact ih (att + 1) (rotate_instance s) (rotate_instance_idx_lt s)

/-- If every attempt in range fails, the loop returns empty and uses all
    its attempts. -/
theorem searxng_loop_all_fail (env : Nat → SxOutcome) :
    ∀ (n att : Nat) (s : SearxngState),
      (∀ a, att ≤ a → a < att + n → (env a).isOk = false) →
      (searxng_attempt_loop env n att s).1 = [] ∧
      (searxng_attempt_loop env n att s).2.2 = att + n := by
  intro n
  induction n with
  | zero => intro att s _; simp [searxng_attempt_loop]
  | succ n ih =>
    intro att s h
    have hatt : (env att).isOk = false := h att (le_refl att) (by omega)
    cases hv : env att with
    | ok items =>
      rw [hv] at hatt
      simp [SxOutcome.isOk] at hatt
    | badStatus c =>
      simp only [searxng_attempt_loop, hv]
      have := ih (att + 1) (rotate_instance s)
        (fun a h1 h2 => h a (by omega) (by omega))
      exact ⟨this.1, by omega⟩
    | exn =>
      simp only [searxng_attempt_loop, hv]
      have := ih (att + 1) (rotate_instance s)
        (fun a h1 h2 => h a (by omega) (by omega))
      exact ⟨this.1, by omega⟩

/-- C10: `SearXNGProvider.search` makes at most 3 attempts; rotation steps
    the instance index cyclically modulo the instance-list length, keeping
    it in bounds; and if every attempt fails (non-200 or exception) the
    call returns the empty result list after exactly 3 attempts, without
    raising. -/
theorem searxng_search_bounded_retries :
    (∀ s : SearxngState,
        (rotate_instance s).current_instance_idx =
          (s.current_instance_idx + 1) % PUBLIC_INSTANCES.length ∧
        (rotate_instance s).current_instance_idx < PUBLIC_INSTANCES.length) ∧
    (∀ (env : Nat → SxOutcome) (s : SearxngState),
        (searxng_search env s).2.2 ≤ 3) ∧
    (∀ (env : Nat → SxOutcome) (s : SearxngState),
        (∀ a, a < 3 → (env a).isOk = false) →
        (searxng_search env s).1 = [] ∧ (searxng_search env s).2.2 = 3) ∧
    (∀ (env : Nat → SxOutcome) (s : SearxngState),
        s.current_instance_idx < PUBLIC_INSTANCES.length →
        (searxng_search env s).2.1.current_instance_idx <
          PUBLIC_INSTANCES.length) := by
  refine ⟨fun s => ⟨rfl, rotate_instance_idx_lt s⟩, fun env s => ?_,
    fun env s h => ?_, fun env s h => searxng_loop_idx_lt env 3 0 s h⟩
  · exact searxng_loop_att_le env 3 0 s
  · exact searxng_loop_all_fail env 3 0 s (fun a _ h2 => h a (by omega))

/-- Witness for C10: three consecutive transport errors starting from the
    first public instance. -/
theorem searxng_search_bounded_retries_witness :
    ((searxng_search (fun _ => SxOutcome.exn) ⟨0, "https://searx.be"⟩).1 = [] ∧
     (searxng_search (fun _ => SxOutcome.exn) ⟨0, "https://searx.be"⟩).2.2 = 3) ∧
    (searxng_search (fun _ => SxOutcome.exn)
        ⟨0, "https://searx.be"⟩).2.1.current_instance_idx <
      PUBLIC_INSTANCES.length :=
  ⟨searxng_search_bounded_retries.2.2.1 (fun _ => SxOutcome.exn)
      ⟨0, "https://searx.be"⟩ (fun a _ => rfl),
   searxng_search_bounded_retries.2.2.2 (fun _ => SxOutcome.exn)
      ⟨0, "https://searx.be"⟩ (by decide)⟩

/-- An unavailable provider is skipped: the loop result is that of the
    remaining providers, with only the failed availability check recorded. -/
theorem search_loop_skip {σ : Type} (p : ProviderM σ) (rest : List (ProviderM σ))
    (q : String) (res0 : List SearchResult) (st st' : σ)
    (h : p.is_available st = Except.ok (false, st')) :
    search_loop q (p :: rest) res0 st =
      Except.map (fun x => (x.1, x.2.1, x.2.2.1,
        Event.availCheck p.name false :: x.2.2.2)) (search_loop q rest res0 st') := by
  simp only [search_loop, h]
  cases hres : search_loop q rest res0 st' with
  | error e => simp [Except.map]
  | ok val =>
    obtain ⟨res, used, st2, tr⟩ := val
    simp [Except.map]

/-- An available provider returning nonempty results ends the loop at once:
    its results and name are the outcome, and no later provider is
    consulted (the trace is exactly its two events, independent of the rest
    of the list). -/
theorem search_loop_first_hit {σ : Type} (p : ProviderM σ)
    (rest : List (ProviderM σ)) (q : String) (res0 : List SearchResult)
    (st st' st'' : σ) (r : List SearchResult)
    (h1 : p.is_available st = Except.ok (true, st'))
    (h2 : p.search q st' = Except.ok (r, st'')) (hr : r ≠ []) :
    search_loop q (p :: rest) res0 st =
      Except.ok (r, some p.name, st'',
        [Event.availCheck p.name true, Event.searchCall p.name]) := by
  have hre : r.isEmpty = false := by
    cases r with
    | nil => exact absurd rfl hr
    | cons a l => rfl
  simp only [search_loop, h1, h2]
  simp [hre]

/-- An available provider returning zero results makes the loop continue
    with the rest of the list. -/
theorem search_loop_continue_empty {σ : Type} (p : ProviderM σ)
    (rest : List (ProviderM σ)) (q : String) (res0 : List SearchResult)
    (st st' st'' : σ)
    (h1 : p.is_available st = Except.ok (true, st'))
    (h2 : p.search q st' = Except.ok ([], st'')) :
    search_loop q (p :: rest) res0 st =
      Except.map (fun x => (x.1, x.2.1, x.2.2.1,
        Event.availCheck p.name true :: Event.searchCall p.name :: x.2.2.2))
        (search_loop q rest [] st'') := by
  simp only [search_loop, h1, h2]
  cases hres : search_loop q rest [] st'' with
  | error e => simp [Except.map]
  | ok val =>
    obtain ⟨res, used, st2, tr⟩ := val
    simp [Except.map]

/-- C3: providers are tried strictly in priority order — an unavailable
    provider is skipped; the first available provider returning nonempty
    results becomes `provider_used` with exactly its results, and nothing
    after it is consulted; an available provider returning zero results is
    passed over; in particular with three providers where the first is
    unavailable and the second returns results, the outcome names the
    second and the third is never attempted (the trace does not depend on
    it). -/
theorem search_priority_order :
    (∀ (σ : Type) (p : ProviderM σ) (rest : List (ProviderM σ)) (q : String)
        (res0 : List SearchResult) (st st' : σ),
        p.is_available st = Except.ok (false, st') →
        search_loop q (p :: rest) res0 st =
          Except.map (fun x => (x.1, x.2.1, x.2.2.1,
            Event.availCheck p.name false :: x.2.2.2))
            (search_loop q rest res0 st')) ∧
    (∀ (σ : Type) (p : ProviderM σ) (rest : List (ProviderM σ)) (q : String)
        (res0 : List SearchResult) (st st' st'' : σ) (r : List SearchResult),
        p.is_available st = Except.ok (true, st') →
        p.search q st' = Except.ok (r, st'') → r ≠ [] →
        search_loop q (p :: rest) res0 st =
          Except.ok (r, some p.name, st'',
            [Event.availCheck p.name true, Event.searchCall p.name])) ∧
    (∀ (σ : Type) (p : ProviderM σ) (rest : List (ProviderM σ)) (q : String)
        (res0 : List SearchResult) (st st' st'' : σ),
        p.is_available st = Except.ok (true, st') →
        p.search q st' = Except.ok ([], st'') →
        search_loop q (p :: rest) res0 st =
          Except.map (fun x => (x.1, x.2.1, x.2.2.1,
            Event.availCheck p.name true :: Event.searchCall p.name :: x.2.2.2))
            (search_loop q rest [] st'')) ∧
    (∀ (σ : Type) (getUsage : σ → UsageData) (ts : String)
        (p1 p2 p3 : ProviderM σ) (q : String) (st st1 st2 st3 : σ)
        (r : List SearchResult),
        p1.is_available st = Except.ok (false, st1) →
        p2.is_available st1 = Except.ok (true, st2) →
        p2.search q st2 = Except.ok (r, st3) → r ≠ [] →
        smart_search getUsage ts [p1, p2, p3] q st =
          Except.ok (⟨q, some p2.name, r, get_status (getUsage st3), ts⟩, st3,
            [Event.availCheck p1.name false, Event.availCheck p2.name true,
             Event.searchCall p2.name])) := by
  refine ⟨fun σ p rest q res0 st st' h => search_loop_skip p rest q res0 st st' h,
    fun σ p rest q res0 st st' st'' r h1 h2 hr =>
      search_loop_first_hit p rest q res0 st st' st'' r h1 h2 hr,
    fun σ p rest q res0 st st' st'' h1 h2 =>
      search_loop_continue_empty p rest q res0 st st' st'' h1 h2,
    fun σ getUsage ts p1 p2 p3 q st st1 st2 st3 r h1 h2 h3 hr => ?_⟩
  have e1 := search_loop_skip p1 [p2, p3] q [] st st1 h1
  have e2 := search_loop_first_hit p2 [p3] q [] st1 st2 st3 r h2 h3 hr
  simp only [smart_search, e1, e2, Except.map]

/-- Stub providers over a trivial state, used to exercise the loop. -/
def stub_unavailable : ProviderM Unit :=
  ⟨"StubUnavailable", fun s => Except.ok (false, s), fun _ s => Except.ok ([], s)⟩

/-- A stub provider that is available and returns one result. -/
def stub_with_result : ProviderM Unit :=
  ⟨"StubWithResult", fun s => Except.ok (true, s),
   fun _ s => Except.ok ([⟨"t", "sn", "l", "stub"⟩], s)⟩

/-- A stub provider that is available but returns no results. -/
def stub_empty : ProviderM Unit :=
  ⟨"StubEmpty", fun s => Except.ok (true, s), fun _ s => Except.ok ([], s)⟩

/-- Witness for C3: provider 1 unavailable, provider 2 returns a result,
    provider 3 is never consulted. -/
theorem search_priority_order_witness :
    smart_search (fun _ : Unit => defaultUsage "2025-01" "2025-01-15") "ts"
        [stub_unavailable, stub_with_result, stub_empty] "q" () =
      Except.ok (⟨"q", some "StubWithResult", [⟨"t", "sn", "l", "stub"⟩],
        get_status (defaultUsage "2025-01" "2025-01-15"), "ts"⟩, (),
        [Event.availCheck "StubUnavailable" false,
         Event.availCheck "StubWithResult" true,
         Event.searchCall "StubWithResult"]) :=
  search_priority_order.2.2.2 Unit (fun _ => defaultUsage "2025-01" "2025-01-15")
    "ts" stub_unavailable stub_with_result stub_empty "q" () () () ()
    [⟨"t", "sn", "l", "stub"⟩] rfl rfl rfl (by decide)

/-- A provider that never yields results: its availability check always
    returns normally (with either answer), and its `search`, when invoked,
    always returns normally with zero results. -/
def fruitless {σ : Type} (p : ProviderM σ) : Prop :=
  (∀ st : σ, ∃ b st', p.is_available st = Except.ok (b, st')) ∧
  (∀ (q : String) (st : σ), ∃ st', p.search q st = Except.ok ([], st'))

/-- The loop over fruitless providers returns normally with no results and
    no provider selected. -/
theorem search_loop_fruitless {σ : Type} (q : String) :
    ∀ (providers : List (ProviderM σ)) (st : σ),
      (∀ p ∈ providers, fruitless p) →
      ∃ st' tr, search_loop q providers [] st = Except.ok ([], none, st', tr) := by
  intro providers
  induction providers with
  | nil => intro st _; exact ⟨st, [], rfl⟩
  | cons p rest ih =>
    intro st h
    obtain ⟨b, st1, hb⟩ := (h p (by simp)).1 st
    cases b with
    | false =>
      obtain ⟨st', tr, hrec⟩ := ih st1 (fun p hp => h p (by simp [hp]))
      refine ⟨st', Event.availCheck p.name false :: tr, ?_⟩
      rw [search_loop_skip p rest q [] st st1 hb, hrec]
      rfl
    | true =>
      obtain ⟨st2, hs⟩ := (h p (by simp)).2 q st1
      obtain ⟨st', tr, hrec⟩ := ih st2 (fun p hp => h p (by simp [hp]))
      refine ⟨st', Event.availCheck p.name true :: Event.searchCall p.name :: tr, ?_⟩
      rw [search_loop_continue_empty p rest q [] st st1 st2 hb hs, hrec]
      rfl

/-- C4: when every provider is unavailable or returns zero results,
    `SmartSearchTool.search` returns normally with `provider_used = none`,
    empty results, a usage snapshot and the timestamp. -/
theorem search_total_exhaustion :
    ∀ (σ : Type) (getUsage : σ → UsageData) (ts : String)
      (providers : List (ProviderM σ)) (q : String) (st : σ),
      (∀ p ∈ providers, fruitless p) →
      ∃ st' tr, smart_search getUsage ts providers q st =
        Except.ok (⟨q, none, [], get_status (getUsage st'), ts⟩, st', tr) := by
  intro σ getUsage ts providers q st h
  obtain ⟨st', tr, hrec⟩ := search_loop_fruitless q providers st h
  exact ⟨st', tr, by simp only [smart_search, hrec]⟩

/-- Witness for C4: one unavailable and one empty-returning provider. -/
theorem search_total_exhaustion_witness :
    ∃ (st' : Unit) (tr : List Event),
      smart_search (fun _ : Unit => defaultUsage "2025-02" "2025-02-10") "ts"
        [stub_unavailable, stub_empty] "q" () =
      Except.ok (⟨"q", none, [],
        get_status (defaultUsage "2025-02" "2025-02-10"), "ts"⟩, st', tr) :=
  search_total_exhaustion Unit (fun _ => defaultUsage "2025-02" "2025-02-10")
    "ts" [stub_unavailable, stub_empty] "q" () (by
      intro p hp
      simp only [List.mem_cons, List.not_mem_nil, or_false] at hp
      rcases hp with h | h <;> subst h
      · exact ⟨fun st => ⟨false, st, rfl⟩, fun q st => ⟨st, rfl⟩⟩
      · exact ⟨fun st => ⟨true, st, rfl⟩, fun q st => ⟨st, rfl⟩⟩)

/-- With a healthy writer, `check_and_update` always returns normally. -/
theorem check_and_update_total (m d svc : String) (u : UsageData) :
    ∃ v, check_and_update true m d svc u = Except.ok v := by
  simp only [check_and_update, save_usage]
  repeat' split
  all_goals first
    | exact ⟨_, rfl⟩
    | simp_all

/-- A provider whose methods return normally from every state with a
    healthy writer, preserving writer health. -/
def world_safe (p : ProviderM World) : Prop :=
  ∀ w : World, w.saveOk = true →
    (∃ b w', p.is_available w = Except.ok (b, w') ∧ w'.saveOk = true) ∧
    (∀ q : String, ∃ r w', p.search q w = Except.ok (r, w') ∧ w'.saveOk = true)

/-- `tracker_check` returns normally when the writer is healthy, without
    touching the writer. -/
theorem tracker_check_safe (svc : String) (w : World) (hw : w.saveOk = true) :
    ∃ b w', tracker_check svc w = Except.ok (b, w') ∧ w'.saveOk = true := by
  obtain ⟨v, hv⟩ := check_and_update_total w.currentMonth w.currentDay svc w.usage
  refine ⟨v.1, { w with usage := v.2.1 }, ?_, hw⟩
  unfold tracker_check
  rw [hw, hv]

/-- The Serper adapter is safe. -/
theorem serper_provider_safe (key : String) : world_safe (serper_provider key) := by
  intro w hw
  constructor
  · by_cases hk : key = ""
    · exact ⟨false, w, by simp [serper_provider, hk], hw⟩
    · obtain ⟨b, w', h1, h2⟩ := tracker_check_safe "serper" w hw
      exact ⟨b, w', by simp [serper_provider, hk, h1], h2⟩
  · intro q
    exact ⟨serper_search w.serperEnv, w, rfl, hw⟩

/-- The SearXNG adapter is safe. -/
theorem searxng_provider_safe : world_safe searxng_provider := by
  intro w hw
  constructor
  · obtain ⟨b, w', h1, h2⟩ := tracker_check_safe "searxng" w hw
    exact ⟨b, w', by simp [searxng_provider, h1], h2⟩
  · intro q
    exact ⟨(searxng_search w.sxEnv w.sx).1,
      { w with sx := (searxng_search w.sxEnv w.sx).2.1 }, rfl, hw⟩

/-- The Brave adapter is safe. -/
theorem brave_provider_safe (key : String) : world_safe (brave_provider key) := by
  intro w hw
  constructor
  · by_cases hk : key = ""
    · exact ⟨false, w, by simp [brave_provider, hk], hw⟩
    · obtain ⟨b, w', h1, h2⟩ := tracker_check_safe "brave" w hw
      exact ⟨b, w', by simp [brave_provider, hk, h1], h2⟩
  · intro q
    exact ⟨brave_search w.braveEnv, w, rfl, hw⟩

/-- The scraper adapter is safe. -/
theorem google_scraper_provider_safe : world_safe google_scraper_provider := by
  intro w hw
  exact ⟨⟨true, w, rfl, hw⟩,
    fun q => ⟨google_scraper_search w.scraperEnv, w, rfl, hw⟩⟩

/-- A loop over safe providers with a healthy writer returns normally. -/
theorem search_loop_world_safe (q : String) :
    ∀ (providers : List (ProviderM World)) (res0 : List SearchResult) (w : World),
      w.saveOk = true → (∀ p ∈ providers, world_safe p) →
      ∃ out, search_loop q providers res0 w = Except.ok out := by
  intro providers
  induction providers with
  | nil => intro res0 w _ _; exact ⟨_, rfl⟩
  | cons p rest ih =>
    intro res0 w hw h
    obtain ⟨b, w1, hb, hw1⟩ := ((h p (by simp)) w hw).1
    cases b with
    | false =>
      obtain ⟨out, hrec⟩ := ih res0 w1 hw1 (fun p hp => h p (by simp [hp]))
      refine ⟨(out.1, out.2.1, out.2.2.1,
        Event.availCheck p.name false :: out.2.2.2), ?_⟩
      rw [search_loop_skip p rest q res0 w w1 hb, hrec]
      rfl
    | true =>
      obtain ⟨r, w2, hs, hw2⟩ := ((h p (by simp)) w1 hw1).2 q
      by_cases hr : r = []
      · subst hr
        obtain ⟨out, hrec⟩ := ih [] w2 hw2 (fun p hp => h p (by simp [hp]))
        refine ⟨(out.1, out.2.1, out.2.2.1, Event.availCheck p.name true ::
          Event.searchCall p.name :: out.2.2.2), ?_⟩
        rw [search_loop_continue_empty p rest q res0 w w1 w2 hb hs, hrec]
        rfl
      · exact ⟨_, search_loop_first_hit p rest q res0 w w1 w2 r hb hs hr⟩

/-- C7: with its providers assembled as in `SmartSearchTool.__init__`,
    `search` never raises for ordinary operational failures — for every
    query, every key configuration, every usage state, and every
    combination of provider transport errors, non-200 responses, malformed
    payloads and quota exhaustions carried by the world state, it returns
    an outcome rather than an exception. -/
theorem smart_search_never_raises (serper_key brave_key ts q : String)
    (w : World) (hw : w.saveOk = true) :
    ∃ out, smart_search World.usage ts (make_providers serper_key brave_key) q w =
      Except.ok out := by
  have hsafe : ∀ p ∈ make_providers serper_key brave_key, world_safe p := by
    intro p hp
    unfold make_providers at hp
    simp only [List.mem_append, List.mem_cons, List.not_mem_nil, or_false] at hp
    rcases hp with ((h | h) | h) | h
    · by_cases hk : serper_key = ""
      · simp [hk] at h
      · simp [hk] at h
        exact h ▸ serper_provider_safe serper_key
    · exact h ▸ searxng_provider_safe
    · by_cases hk : brave_key = ""
      · simp [hk] at h
      · simp [hk] at h
        exact h ▸ brave_provider_safe brave_key
    · exact h ▸ google_scraper_provider_safe
  obtain ⟨out, hout⟩ :=
    search_loop_world_safe q (make_providers serper_key brave_key) [] w hw hsafe
  obtain ⟨res, used, w1, tr⟩ := out
  exact ⟨(⟨q, used, res, get_status w1.usage, ts⟩, w1, tr),
    by simp only [smart_search, hout]⟩

/-- Witness for C7: both keys configured, quota fresh, and every provider's
    network behaviour failing (transport error, HTTP 500, repeated SearXNG
    exceptions, scraper exception) — the call still returns an outcome. -/
theorem smart_search_never_raises_witness :
    ∃ out, smart_search World.usage "ts" (make_providers "key1" "key2") "q"
        { usage := defaultUsage "2025-01" "2025-01-15", saveOk := true,
          currentMonth := "2025-01", currentDay := "2025-01-15",
          sx := ⟨0, "https://searx.be"⟩,
          serperEnv := HttpOutcome.transportError,
          braveEnv := HttpOutcome.badStatus 500,
          sxEnv := fun _ => SxOutcome.exn,
          scraperEnv := ScrapeOutcome.exn } =
      Except.ok out :=
  smart_search_never_raises "key1" "key2" "ts" "q" _ rfl
